import Mathlib

/-
Verification development for the voice-assistant backend.

Shallow embedding of the two core modules:
  * backend/mcp_protocol.py — MCPProtocolHandler: tool registry, approval
    store, tool execution (class MCPProtocolHandler).
  * backend/main.py — session lifecycle endpoints, the WebSocket message
    handler, and the tool-approval endpoint.

Python dicts are modelled as ordered association lists (insertion order is
iteration order, as in CPython); inserting an existing key replaces the
value in place, inserting a new key appends.  Network collaborators
(Deepgram STT/TTS, Gemini, httpx calls to external MCP servers) are
function parameters.  Timestamps (datetime.now().timestamp()) are a Nat
parameter `now`.  JSON argument values are modelled as strings.
-/

namespace VoiceSoul

/-! ## Python string primitives

Kernel-evaluable models of the Python string methods the source uses
(`Substring`-based Lean built-ins do not reduce in the kernel). -/

/-- Python `s.strip()`: drop whitespace from both ends. -/
def pyStrip (s : String) : String :=
  ⟨((s.data.dropWhile Char.isWhitespace).reverse.dropWhile Char.isWhitespace).reverse⟩

/-- Python `s.startswith(pre)`. -/
def pyStartsWith (s pre : String) : Bool :=
  pre.data.isPrefixOf s.data

/-! ## Python dict model -/

/-- Membership-respecting lookup: first entry with the key (association
lists built by `dictInsert` never hold a key twice, as Python dicts). -/
def dictLookup {α : Type} (k : String) : List (String × α) → Option α
  | [] => none
  | p :: rest => if p.1 = k then some p.2 else dictLookup k rest

/-- `d[k] = v`: replace in place when the key is present (keeping its
position, as CPython does), else append at the end. -/
def dictInsert {α : Type} (k : String) (v : α) : List (String × α) → List (String × α)
  | [] => [(k, v)]
  | p :: rest => if p.1 = k then (k, v) :: rest else p :: dictInsert k v rest

/-- `del d[k]` / `d.pop(k)`: remove the entry with key `k`. -/
def dictErase {α : Type} (k : String) (d : List (String × α)) : List (String × α) :=
  d.filter (fun p => p.1 ≠ k)

/-- `k in d`. -/
def dictContains {α : Type} (k : String) (d : List (String × α)) : Bool :=
  (dictLookup k d).isSome

/-! ## mcp_protocol.py — data model -/

/-- Tool argument mapping (`arguments: Dict[str, Any]`); values rendered as
strings. -/
abbrev Args := List (String × String)

/-- `arguments.get(k)` interpolated into a Python f-string: a missing key
renders as `None`. -/
def argGet (args : Args) (k : String) : String :=
  (dictLookup k args).getD "None"

/-- `arguments.get(k, d)` interpolated into a Python f-string. -/
def argGetD (args : Args) (k : String) (d : String) : String :=
  (dictLookup k args).getD d

/-- One entry of an `MCPServer.tools` list (`tool.get("name")` may be
absent).  The JSON parameter schema carried by the source dicts is not
modelled: no registry or approval logic reads it. -/
structure ToolSchema where
  name : Option String
  description : String := ""
deriving DecidableEq, Repr

/-- class MCPToolCall (mcp_protocol.py lines 16-19). -/
structure MCPToolCall where
  name : String
  arguments : Args
  call_id : Option String := none
deriving DecidableEq, Repr

/-- class MCPToolResult (mcp_protocol.py lines 21-25); `result` is rendered
as a string. -/
structure MCPToolResult where
  call_id : Option String := none
  result : String
  error : Option String := none
  requires_approval : Bool := false
deriving DecidableEq, Repr

/-- class MCPServer (mcp_protocol.py lines 27-35).  `last_sync` is
bookkeeping never read by any logic and is omitted. -/
structure MCPServer where
  name : String
  url : String
  api_key : Option String := none
  enabled : Bool := true
  approval_mode : String := "always_ask"
  description : Option String := none
  tools : List ToolSchema := []
deriving DecidableEq, Repr

/-- The mutable state of MCPProtocolHandler (mcp_protocol.py lines 40-43):
`servers`, `pending_approvals` and `tool_registry`, each a Python dict. -/
structure HandlerState where
  servers : List (String × MCPServer)
  pending : List (String × MCPToolCall)
  registry : List (String × String)
deriving DecidableEq, Repr

/-- A record of one tool dispatch actually performed (the side-effecting
boundary reached at mcp_protocol.py lines 286-289: a builtin handler run or
an HTTP POST to an external server), with the `user_id` the execution ran
under. -/
structure Dispatch where
  userId : String
  tool : String
  args : Args
deriving DecidableEq, Repr

/-- A Python call outcome: a returned value, or an exception that escapes
the callee uncaught. -/
inductive PyResult (α : Type) where
  | ok (value : α)
  | exn (message : String)
deriving DecidableEq, Repr

/-- Result of `execute_tool` / `approve_tool_call`: the returned value (or
the uncaught exception), the handler state after the call, and the
dispatches performed. -/
structure ExecOut where
  result : PyResult MCPToolResult
  handler : HandlerState
  log : List Dispatch
deriving DecidableEq, Repr

/-! ## mcp_protocol.py — registry -/

/-- The (tool_name, server_name) writes the nested loops of
`_rebuild_tool_registry` (lines 229-238) perform for one server's tool
list: one write per tool whose `tool.get("name")` is truthy (present and
non-empty). -/
def tool_writes (serverName : String) : List ToolSchema → List (String × String)
  | [] => []
  | t :: ts =>
    (match t.name with
     | some nm => if nm ≠ "" then [(nm, serverName)] else []
     | none => []) ++ tool_writes serverName ts

/-- All registry writes of `_rebuild_tool_registry`, in iteration order of
`self.servers.items()`, skipping disabled servers. -/
def writes_list : List (String × MCPServer) → List (String × String)
  | [] => []
  | p :: rest =>
    (if p.2.enabled then tool_writes p.1 p.2.tools else []) ++ writes_list rest

/-- MCPProtocolHandler._rebuild_tool_registry (lines 229-238): clear, then
`self.tool_registry[tool_name] = server_name` for each write in order. -/
def rebuild_tool_registry (servers : List (String × MCPServer)) : List (String × String) :=
  (writes_list servers).foldl (fun m p => dictInsert p.1 p.2 m) []

/-- MCPProtocolHandler.get_available_tools (lines 240-248): extend an empty
list with every enabled server's tools, in server iteration order. -/
def get_available_tools (h : HandlerState) : List ToolSchema :=
  h.servers.foldl (fun acc p => if p.2.enabled then acc ++ p.2.tools else acc) []

/-- MCPProtocolHandler.add_custom_server (lines 187-206) for a
well-validated config: http(s) servers get their tool list from the remote
discovery call (collaborator `fetch`, already folded to "list or empty on
failure" as `_fetch_server_tools` catches everything); the server is stored
and the registry rebuilt. -/
def add_custom_server (fetch : MCPServer → List ToolSchema)
    (h : HandlerState) (server : MCPServer) : HandlerState :=
  let server := if pyStartsWith server.url "http" then { server with tools := fetch server } else server
  let servers := dictInsert server.name server h.servers
  { h with servers := servers, registry := rebuild_tool_registry servers }

/-! ## mcp_protocol.py — execution -/

/-- MCPProtocolHandler._execute_builtin_tool together with the builtin
handlers (lines 316-431); each handler is a placeholder returning a
formatted description string. -/
def execute_builtin_tool (toolName : String) (args : Args) : MCPToolResult :=
  if toolName = "add_calendar_event" then
    { result := "Calendar event '" ++ argGet args "title" ++ "' would be created from "
        ++ argGet args "start_time" ++ " to " ++ argGet args "end_time" }
  else if toolName = "get_calendar_events" then
    { result := "Calendar events from " ++ argGet args "start_date" ++ " to "
        ++ argGet args "end_date" ++ " would be retrieved" }
  else if toolName = "send_email" then
    { result := "Email to " ++ argGet args "to" ++ " with subject '"
        ++ argGet args "subject" ++ "' would be sent" }
  else if toolName = "read_emails" then
    { result := "Recent emails with query '" ++ argGetD args "query" "all"
        ++ "' would be retrieved" }
  else if toolName = "search_web" then
    { result := "Web search results for '" ++ argGet args "query" ++ "' would be returned" }
  else if toolName = "get_weather" then
    { result := "Current weather for " ++ argGet args "location" ++ " would be retrieved" }
  else if toolName = "get_weather_forecast" then
    { result := "Weather forecast for " ++ argGet args "location" ++ " ("
        ++ argGetD args "days" "5" ++ " days) would be retrieved" }
  else
    { result := "", error := some ("Unknown built-in tool: " ++ toolName) }

/-- The call id `f"{user_id}_{tool_name}_{datetime.now().timestamp()}"`
(mcp_protocol.py line 274). -/
def approval_call_id (userId toolName : String) (now : Nat) : String :=
  userId ++ "_" ++ toolName ++ "_" ++ toString now

/-- The MCPToolCall stored in `pending_approvals` (line 275). -/
def approval_pending_entry (toolName : String) (args : Args) (cid : String) : MCPToolCall :=
  { name := toolName, arguments := args, call_id := some cid }

/-- The MCPToolResult returned while a call awaits approval
(lines 278-282). -/
def approval_gated_result (toolName cid : String) : MCPToolResult :=
  { call_id := some cid,
    result := "Tool call '" ++ toolName ++ "' requires approval. Call ID: " ++ cid,
    requires_approval := true }

/-- MCPProtocolHandler.execute_tool (lines 250-296).  `ext` is the
collaborator for `_execute_external_tool` (lines 339-381), whose own
try/except already converts every transport fault into an error result.
`now` stands for `datetime.now().timestamp()` used in the call id.  The
`self.servers[server_name]` subscript (line 266) would raise KeyError if
the registry pointed at a missing server; that is the exception
branch. -/
def execute_tool (ext : MCPServer → String → Args → MCPToolResult)
    (h : HandlerState) (toolName : String) (args : Args) (userId : String)
    (now : Nat) (requiresApproval : Option Bool) : ExecOut :=
  match dictLookup toolName h.registry with
  | none =>
    let res : MCPToolResult :=
      { result := "",
        error := some ("Tool '" ++ toolName ++ "' not found in any registered MCP server") }
    { result := PyResult.ok res, handler := h, log := [] }
  | some serverName =>
    match dictLookup serverName h.servers with
    | none => { result := PyResult.exn ("KeyError: " ++ serverName), handler := h, log := [] }
    | some server =>
      let ra := requiresApproval.getD (server.approval_mode = "always_ask")
      if ra then
        let callId := approval_call_id userId toolName now
        let tc := approval_pending_entry toolName args callId
        { result := PyResult.ok (approval_gated_result toolName callId),
          handler := { h with pending := dictInsert callId tc h.pending },
          log := [] }
      else
        let res :=
          if pyStartsWith server.url "builtin://" then execute_builtin_tool toolName args
          else ext server toolName args
        { result := PyResult.ok res, handler := h,
          log := [{ userId := userId, tool := toolName, args := args }] }

/-- The error result `approve_tool_call` returns for an unknown call id
(lines 300-304). -/
def approval_not_found (callId : String) : MCPToolResult :=
  { result := "", error := some ("No pending approval found for call ID: " ++ callId) }

/-- MCPProtocolHandler.approve_tool_call (lines 298-314): pop the pending
call and re-run `execute_tool` with `user_id="approved"` and
`requires_approval=False`; unknown ids get an explicit error result.  The
`requires_approval=False` path never reads the timestamp, so `now` is
passed as 0. -/
def approve_tool_call (ext : MCPServer → String → Args → MCPToolResult)
    (h : HandlerState) (callId : String) : ExecOut :=
  match dictLookup callId h.pending with
  | none => { result := PyResult.ok (approval_not_found callId), handler := h, log := [] }
  | some tc =>
    let h1 := { h with pending := dictErase callId h.pending }
    execute_tool ext h1 tc.name tc.arguments "approved" 0 (some false)

/-! ## mcp_protocol.py — default servers -/

/-- The Google Calendar server of `_initialize_default_servers`
(lines 52-86). -/
def calendar_server : MCPServer :=
  { name := "google_calendar", url := "builtin://calendar",
    description := some "Google Calendar integration for managing events",
    tools :=
      [ { name := some "add_calendar_event", description := "Add an event to Google Calendar" },
        { name := some "get_calendar_events", description := "Get calendar events for a date range" } ] }

/-- The Gmail server (lines 89-121). -/
def gmail_server : MCPServer :=
  { name := "gmail", url := "builtin://gmail",
    description := some "Gmail integration for email management",
    tools :=
      [ { name := some "send_email", description := "Send an email via Gmail" },
        { name := some "read_emails", description := "Read recent emails from Gmail" } ] }

/-- The Perplexity search server (lines 124-142). -/
def perplexity_server : MCPServer :=
  { name := "perplexity_search", url := "builtin://perplexity",
    description := some "Web search using Perplexity AI",
    tools := [ { name := some "search_web", description := "Search the web using Perplexity AI" } ] }

/-- The OpenWeatherMap server (lines 145-176). -/
def weather_server : MCPServer :=
  { name := "openweather", url := "builtin://weather",
    description := some "Weather information using OpenWeatherMap",
    tools :=
      [ { name := some "get_weather", description := "Get current weather for a location" },
        { name := some "get_weather_forecast", description := "Get weather forecast for a location" } ] }

/-- `_initialize_default_servers` (lines 48-185): the handler state right
after `MCPProtocolHandler.__init__`: the four default servers registered in
order, registry rebuilt, no pending approvals. -/
def default_handler_state : HandlerState :=
  let servers :=
    dictInsert "openweather" weather_server
      (dictInsert "perplexity_search" perplexity_server
        (dictInsert "gmail" gmail_server
          (dictInsert "google_calendar" calendar_server [])))
  { servers := servers, pending := [], registry := rebuild_tool_registry servers }

/-! ## main.py — data model -/

/-- class ChatMessage (main.py lines 104-108); `tool_calls` is never set by
the handler and omitted.  The handler constructs messages with the default
`timestamp=None`. -/
structure ChatMessage where
  role : String
  content : String
  timestamp : Option Nat := none
deriving DecidableEq, Repr

/-- The slice of the bot configuration the session logic reads:
`bot_config["name"]`, `bot_config.get("voice", ...)` and the personality
text. -/
structure BotConfig where
  name : String
  voice : Option String := none
  personality : Option String := none
deriving DecidableEq, Repr

/-- One entry of the module-level `voice_sessions` dict
(main.py lines 213-222), plus the `muted` / `is_interrupted` keys the
WebSocket handler adds later (absent means their `session.get(..., False)`
default). -/
structure VoiceSession where
  user_id : String
  bot_id : String
  room_name : String
  bot_config : BotConfig
  created_at : Nat
  messages : List ChatMessage
  is_active : Bool := true
  muted : Bool := false
  is_interrupted : Bool := false
deriving DecidableEq, Repr

/-- class VoiceSessionRequest (lines 99-102). -/
structure VoiceSessionRequest where
  user_id : String
  bot_id : String
  room_name : Option String := none
deriving DecidableEq, Repr

/-- class ToolApprovalRequest (lines 118-121). -/
structure ToolApprovalRequest where
  call_id : String
  approved : Bool
  user_id : String
deriving DecidableEq, Repr

/-! ## main.py — session lifecycle endpoints -/

/-- What `start_voice_session` (lines 184-236) returns and stores; the
LiveKit client and access token are collaborator output not modelled. -/
structure StartOutcome where
  session_id : String
  room_name : String
  sessions : List (String × VoiceSession)
deriving DecidableEq, Repr

/-- start_voice_session (lines 184-236): `room_name or f"voice-..."` is
Python `or` (None and the empty string both fall back to the default);
`session_id = f"{user_id}-{bot_id}-{int(timestamp)}"` is stored with a
plain dict assignment.  `cfg` is the bot configuration fetched from the
storage collaborator; `now` is `int(datetime.now().timestamp())`. -/
def start_voice_session (sessions : List (String × VoiceSession))
    (req : VoiceSessionRequest) (now : Nat) (cfg : BotConfig) : StartOutcome :=
  let defaultRoom := "voice-" ++ req.user_id ++ "-" ++ toString now
  let room :=
    match req.room_name with
    | some r => if r = "" then defaultRoom else r
    | none => defaultRoom
  let sid := req.user_id ++ "-" ++ req.bot_id ++ "-" ++ toString now
  let session : VoiceSession :=
    { user_id := req.user_id, bot_id := req.bot_id, room_name := room,
      bot_config := cfg, created_at := now, messages := [], is_active := true }
  { session_id := sid, room_name := room, sessions := dictInsert sid session sessions }

/-- The HTTP response of `end_voice_session`: the success body
`{"status": "session_ended", "session_id": ...}` or an error status with
detail. -/
inductive HttpResult where
  | ok (status : String) (session_id : String)
  | err (code : Nat) (detail : String)
deriving DecidableEq, Repr

/-- A `save_conversation_to_supabase(user_id, bot_id, messages)` call. -/
structure SaveCall where
  user_id : String
  bot_id : String
  messages : List ChatMessage
deriving DecidableEq, Repr

/-- Everything observable about one `end_voice_session` call: the HTTP
response, the session and WebSocket registries afterwards, the
conversation saves performed, the voice clients disconnected and the
WebSockets closed. -/
structure EndOutcome where
  response : HttpResult
  sessions : List (String × VoiceSession)
  websockets : List String
  saved : List SaveCall
  disconnected : List String
  wsClosed : List String
deriving DecidableEq, Repr

/-- end_voice_session (main.py lines 238-277).  The route body raises
HTTPException(404, "Session not found") / HTTPException(403, "Access
denied") inside a `try` whose `except Exception` re-raises
`HTTPException(500, str(e))`; since fastapi's HTTPException is an
Exception, those errors reach the caller as status 500 with
`str(e) = f"{status_code}: {detail}"` as the detail.  On success the
conversation is saved when non-empty, the voice client disconnected, the
session deleted and any active WebSocket closed. -/
def end_voice_session (userId : String) (sessions : List (String × VoiceSession))
    (websockets : List String) (sid : String) : EndOutcome :=
  match dictLookup sid sessions with
  | none =>
    { response := HttpResult.err 500 "404: Session not found",
      sessions := sessions, websockets := websockets,
      saved := [], disconnected := [], wsClosed := [] }
  | some session =>
    if session.user_id ≠ userId then
      { response := HttpResult.err 500 "403: Access denied",
        sessions := sessions, websockets := websockets,
        saved := [], disconnected := [], wsClosed := [] }
    else
      let saved := if session.messages ≠ [] then
        [{ user_id := session.user_id, bot_id := session.bot_id, messages := session.messages }]
        else []
      let closed := if websockets.contains sid then [sid] else []
      { response := HttpResult.ok "session_ended" sid,
        sessions := dictErase sid sessions,
        websockets := websockets.filter (fun x => x ≠ sid),
        saved := saved, disconnected := [sid], wsClosed := closed }

/-! ## main.py — WebSocket message handler -/

/-- Inbound WebSocket messages, by `data.get("type")`
(main.py lines 322-401).  `audio` carries `data.get("audio")`;
`textInput` carries `data.get("text", "")` (a missing key is the empty
string); `other` is any unrecognized or missing type, which matches no
branch. -/
inductive InMsg where
  | audio (data : Option String)
  | interrupt
  | toggleMute
  | textInput (text : String)
  | other
deriving DecidableEq, Repr

/-- Outbound WebSocket messages sent by `handle_websocket_message`. -/
inductive OutMsg where
  | transcription (text : String) (isFinal : Bool)
  | response (text : String) (audio : Option String) (timestamp : Nat)
  | interrupted
  | muteStatus (muted : Bool)
  | error (message : String)
deriving DecidableEq, Repr

/-- The dict `generate_bot_response` returns (lines 492-578); the
WebSocket handler reads only `"text"`. -/
structure BotResponse where
  text : String
  requires_approval : Bool := false
  call_id : Option String := none
deriving DecidableEq, Repr

/-- handle_websocket_message (main.py lines 318-405) for one session.
Collaborators: `stt` is `process_audio_stt` (a transcript or None), `gen`
is `generate_bot_response` (called on the session *after* the user message
was appended, as the source mutates the dict in place) and may yield None,
`tts` is `generate_tts_audio text voice`.  `now` renders
`datetime.now().isoformat()` timestamps.  Returns the updated session and
the messages sent over the WebSocket, in order. -/
def handle_websocket_message (stt : String → Option String)
    (gen : VoiceSession → String → Option BotResponse)
    (tts : String → String → Option String)
    (now : Nat) (s : VoiceSession) (m : InMsg) : VoiceSession × List OutMsg :=
  match m with
  | InMsg.audio d =>
    match d with
    | none => (s, [])
    | some a =>
      -- line 327: `if audio_data:` — None and "" are both falsy
      if a = "" then (s, [])
      else
        match stt a with
        | none => (s, [])
        | some t =>
          -- line 330: `if transcript and transcript.strip():`
          if t ≠ "" ∧ pyStrip t ≠ "" then
            let s1 := { s with messages := s.messages ++ [{ role := "user", content := t }] }
            match gen s1 t with
            | none => (s1, [OutMsg.transcription t true])
            | some br =>
              let s2 := { s1 with messages := s1.messages ++ [{ role := "assistant", content := br.text }] }
              -- line 358: `if bot_response["text"] and not session.get("muted", False):`
              let audioOpt :=
                if br.text ≠ "" ∧ s.muted = false then
                  tts br.text (s.bot_config.voice.getD "aura-2-thalia-en")
                else none
              (s2, [OutMsg.transcription t true, OutMsg.response br.text audioOpt now])
          else (s, [])
  | InMsg.interrupt =>
    ({ s with is_interrupted := true }, [OutMsg.interrupted])
  | InMsg.toggleMute =>
    let s1 := { s with muted := !s.muted }
    (s1, [OutMsg.muteStatus s1.muted])
  | InMsg.textInput txt =>
    let t := pyStrip txt
    if t ≠ "" then
      let s1 := { s with messages := s.messages ++ [{ role := "user", content := t }] }
      match gen s1 t with
      | none => (s1, [])
      | some br =>
        let s2 := { s1 with messages := s1.messages ++ [{ role := "assistant", content := br.text }] }
        (s2, [OutMsg.response br.text none now])
    else (s, [])
  | InMsg.other => (s, [])

/-! ## main.py — tool approval endpoint -/

/-- The JSON body `/api/tools/approve` answers with (lines 588-595), or
the 500 the route's `except Exception` turns an uncaught error into. -/
inductive ApprovalResponse where
  | approved (result : String) (error : Option String)
  | denied (message : String)
  | serverError (code : Nat) (detail : String)
deriving DecidableEq, Repr

/-- Outcome of one call to the approval endpoint. -/
structure EndpointOut where
  response : ApprovalResponse
  handler : HandlerState
  log : List Dispatch
deriving DecidableEq, Repr

/-- approve_tool_call endpoint (main.py lines 581-599).  `user` is the
authenticated caller from `Depends(get_current_user)`; the body never
reads it, nor `request.user_id`.  Approved: delegate to the protocol
handler and answer with its result/error fields.  Denied: delete the
pending entry when present and always answer the same denied message. -/
def approve_endpoint (ext : MCPServer → String → Args → MCPToolResult)
    (user : String) (h : HandlerState) (req : ToolApprovalRequest) : EndpointOut :=
  if req.approved then
    let o := approve_tool_call ext h req.call_id
    match o.result with
    | PyResult.ok res =>
      { response := ApprovalResponse.approved res.result res.error,
        handler := o.handler, log := o.log }
    | PyResult.exn e =>
      { response := ApprovalResponse.serverError 500 e, handler := o.handler, log := o.log }
  else
    let h1 :=
      if dictContains req.call_id h.pending then
        { h with pending := dictErase req.call_id h.pending }
      else h
    { response := ApprovalResponse.denied "Tool call was denied by user", handler := h1, log := [] }

/-! ## Analysis helpers -/

/-- The value of the last write with key `k` in a write sequence (later
writes shadow earlier ones): the reference meaning of rebuilding a dict by
a fold of assignments. -/
def lastWrite (l : List (String × String)) (k : String) : Option String :=
  match l with
  | [] => none
  | p :: rest =>
    match lastWrite rest k with
    | some v => some v
    | none => if p.1 = k then some p.2 else none

/-- Concatenation of the tool lists of the enabled servers, in iteration
order (structural characterization of `get_available_tools`). -/
def enabled_tools : List (String × MCPServer) → List ToolSchema
  | [] => []
  | p :: rest => (if p.2.enabled then p.2.tools else []) ++ enabled_tools rest

/-- How many schemas in a tool list carry a given name. -/
def countNamed (n : String) (ts : List ToolSchema) : Nat :=
  (ts.filter (fun t => t.name = some n)).length

/-! ## Concrete fixtures for witnesses and counterexamples -/

/-- External-execution collaborator stub: every HTTP call fails (the
source maps that to an error result). -/
def extStub : MCPServer → String → Args → MCPToolResult :=
  fun _ _ _ => { result := "", error := some "Failed to communicate with MCP server: unreachable" }

/-- Remote tool-discovery collaborator stub: discovery yields no tools. -/
def fetchStub : MCPServer → List ToolSchema := fun _ => []

/-- Scenario A arguments for `send_email`. -/
def emailArgs : Args := [("to", "a@example.com"), ("subject", "Hi"), ("body", "Hello")]

/-- Handler state after an approval-gated `execute_tool("send_email", ...,
"u1")` at time 111 on the freshly initialized handler. -/
def pending_state : HandlerState :=
  (execute_tool extStub default_handler_state "send_email" emailArgs "u1" 111 none).handler

/-- The call id that execution generates. -/
def cid1 : String := "u1_send_email_111"

/-- A second provider also declaring `search_web`. -/
def rival_search_server : MCPServer :=
  { name := "my_search", url := "builtin://mysearch",
    description := some "Alternative search provider",
    tools := [ { name := some "search_web", description := "Alternative web search" } ] }

/-- Registry state after registering `rival_search_server` on top of the
default servers (the default `perplexity_search` also declares
`search_web`). -/
def two_search_state : HandlerState :=
  add_custom_server fetchStub default_handler_state rival_search_server

/-- A concrete bot configuration. -/
def cfg0 : BotConfig := { name := "Isha" }

/-- A fresh concrete session. -/
def session0 : VoiceSession :=
  { user_id := "u1", bot_id := "b1", room_name := "r1", bot_config := cfg0,
    created_at := 0, messages := [] }

/-- STT collaborator stub that transcribes everything as a fixed phrase. -/
def sttHello : String → Option String := fun _ => some "hello there"

/-- STT collaborator stub that hears only whitespace. -/
def sttBlank : String → Option String := fun _ => some "   "

/-- Model collaborator stub that echoes the prompt. -/
def genEcho : VoiceSession → String → Option BotResponse :=
  fun _ t => some { text := "echo " ++ t }

/-- TTS collaborator stub producing no audio. -/
def ttsNone : String → String → Option String := fun _ _ => none

/-- A session owned by alice holding one message, registered as "s1". -/
def alice_session : VoiceSession :=
  { user_id := "alice", bot_id := "b9", room_name := "room9", bot_config := cfg0,
    created_at := 5, messages := [{ role := "user", content := "hi" }] }

/-- The session registry holding alice's session. -/
def alice_sessions : List (String × VoiceSession) := [("s1", alice_session)]

/-- First session-start call: user u, bot b, room r1, at unix second 100. -/
def start1 : StartOutcome :=
  start_voice_session [] { user_id := "u", bot_id := "b", room_name := some "r1" } 100 cfg0

/-- Second session-start call in the same second, room r2. -/
def start2 : StartOutcome :=
  start_voice_session start1.sessions
    { user_id := "u", bot_id := "b", room_name := some "r2" } 100 cfg0

/-! ## Dictionary lemmas -/

theorem dictLookup_dictInsert {α : Type} (k k' : String) (v : α) (d : List (String × α)) :
    dictLookup k (dictInsert k' v d) = if k = k' then some v else dictLookup k d := by
  induction d with
  | nil =>
    simp only [dictInsert, dictLookup]
    by_cases h : k' = k
    · subst h; simp
    · rw [if_neg h, if_neg (fun hh => h hh.symm)]
  | cons p rest ih =>
    simp only [dictInsert]
    by_cases hp : p.1 = k'
    · rw [if_pos hp]
      simp only [dictLookup]
      by_cases hk : k' = k
      · subst hk; rw [if_pos rfl, if_pos rfl]
      · rw [if_neg hk, if_neg (fun hh => hk hh.symm),
          if_neg (fun hh : p.1 = k => hk (hp ▸ hh))]
    · rw [if_neg hp]
      simp only [dictLookup, ih]
      by_cases hpk : p.1 = k
      · rw [if_pos hpk, if_neg (fun hh : k = k' => hp (hh ▸ hpk)), if_pos hpk]
      · rw [if_neg hpk]
        by_cases hk : k = k'
        · rw [if_pos hk, if_pos hk]
        · rw [if_neg hk, if_neg hk, if_neg hpk]

theorem dictLookup_dictErase {α : Type} (k k' : String) (d : List (String × α)) :
    dictLookup k (dictErase k' d) = if k = k' then none else dictLookup k d := by
  induction d with
  | nil => simp [dictErase, dictLookup]
  | cons p rest ih =>
    simp only [dictErase, List.filter] at ih ⊢
    by_cases hp : p.1 = k'
    · simp only [hp, decide_True, ne_eq, not_true_eq_false, decide_False, Bool.false_eq_true,
        if_false]
      rw [ih]
      by_cases hk : k = k'
      · rw [if_pos hk, if_pos hk]
      · rw [if_neg hk, if_neg hk, dictLookup, if_neg (fun hh : p.1 = k => hk (hh ▸ hp ▸ rfl))]
    · have : (decide ¬p.1 = k') = true := by simp [hp]
      rw [this]
      simp only [dictLookup, ih]
      by_cases hpk : p.1 = k
      · rw [if_pos hpk, if_neg (fun hh : k = k' => hp (hpk ▸ hh)), if_pos hpk]
      · rw [if_neg hpk, if_neg hpk]

theorem dictContains_iff {α : Type} (k : String) (d : List (String × α)) :
    dictContains k d = true ↔ ∃ v, dictLookup k d = some v := by
  unfold dictContains
  cases dictLookup k d <;> simp [Option.isSome]

theorem dictInsert_length {α : Type} (k : String) (v : α) (d : List (String × α)) :
    (dictInsert k v d).length = if dictContains k d then d.length else d.length + 1 := by
  induction d with
  | nil => simp [dictInsert, dictContains, dictLookup, Option.isSome]
  | cons p rest ih =>
    simp only [dictInsert, dictContains, dictLookup] at ih ⊢
    by_cases hp : p.1 = k
    · simp [hp]
    · simp only [if_neg hp, List.length_cons, ih]
      by_cases hc : (dictLookup k rest).isSome = true
      · rw [if_pos hc, if_pos hc]
      · rw [if_neg hc, if_neg hc]

/-! ## Registry lemmas -/

theorem foldl_dictInsert_lookup (l : List (String × String))
    (init : List (String × String)) (k : String) :
    dictLookup k (l.foldl (fun m p => dictInsert p.1 p.2 m) init) =
      match lastWrite l k with
      | some v => some v
      | none => dictLookup k init := by
  induction l generalizing init with
  | nil => simp [lastWrite]
  | cons p rest ih =>
    simp only [List.foldl_cons, lastWrite, ih, dictLookup_dictInsert]
    cases lastWrite rest k with
    | some v => rfl
    | none =>
      by_cases hk : k = p.1
      · rw [if_pos hk, if_pos hk.symm]
      · rw [if_neg hk, if_neg (fun hh => hk hh.symm)]

theorem rebuild_registry_lookup (servers : List (String × MCPServer)) (k : String) :
    dictLookup k (rebuild_tool_registry servers) = lastWrite (writes_list servers) k := by
  unfold rebuild_tool_registry
  rw [foldl_dictInsert_lookup]
  cases lastWrite (writes_list servers) k <;> simp [dictLookup]

theorem get_available_tools_foldl_aux (l : List (String × MCPServer))
    (acc : List ToolSchema) :
    l.foldl (fun acc p => if p.2.enabled then acc ++ p.2.tools else acc) acc =
      acc ++ enabled_tools l := by
  induction l generalizing acc with
  | nil => simp [enabled_tools]
  | cons p rest ih =>
    simp only [List.foldl_cons, enabled_tools, ih]
    by_cases hp : p.2.enabled
    · rw [if_pos hp, if_pos hp, List.append_assoc]
    · rw [if_neg hp, if_neg hp, List.nil_append]

theorem get_available_tools_eq (h : HandlerState) :
    get_available_tools h = enabled_tools h.servers := by
  unfold get_available_tools
  rw [get_available_tools_foldl_aux, List.nil_append]

theorem countNamed_append (n : String) (a b : List ToolSchema) :
    countNamed n (a ++ b) = countNamed n a + countNamed n b := by
  simp [countNamed, List.filter_append]

theorem countNamed_tool_writes (n : String) (hn : n ≠ "") (sn : String)
    (ts : List ToolSchema) :
    countNamed n ts = ((tool_writes sn ts).filter (fun p => p.1 = n)).length := by
  induction ts with
  | nil => simp [countNamed, tool_writes]
  | cons t rest ih =>
    simp only [countNamed] at ih
    cases hname : t.name with
    | none =>
      simp [countNamed, tool_writes, hname, List.filter_cons, ih]
    | some nm =>
      by_cases hnm : nm = ""
      · subst hnm
        have hne : ¬((some "" : Option String) = some n) := by
          intro hc
          exact hn (Option.some.inj hc).symm
        simp [countNamed, tool_writes, hname, List.filter_cons, hne, ih]
      · by_cases heq : nm = n
        · subst heq
          simp [countNamed, tool_writes, hname, List.filter_cons, hnm, ih]
        · have hne : ¬((some nm : Option String) = some n) := by
            intro hc
            exact heq (Option.some.inj hc)
          simp [countNamed, tool_writes, hname, List.filter_cons, hnm, hne, heq, ih]

theorem countNamed_enabled_tools (n : String) (hn : n ≠ "")
    (servers : List (String × MCPServer)) :
    countNamed n (enabled_tools servers) =
      ((writes_list servers).filter (fun p => p.1 = n)).length := by
  induction servers with
  | nil => simp [enabled_tools, writes_list, countNamed]
  | cons p rest ih =>
    simp only [enabled_tools, writes_list, countNamed_append, List.filter_append,
      List.length_append, ih]
    by_cases hp : p.2.enabled
    · rw [if_pos hp, if_pos hp, countNamed_tool_writes n hn p.1]
    · rw [if_neg hp, if_neg hp]
      simp [countNamed]

/-! ## Execution lemmas -/

theorem execute_tool_forced_false_handler
    (ext : MCPServer → String → Args → MCPToolResult) (h : HandlerState)
    (toolName : String) (args : Args) (userId : String) (now : Nat) :
    (execute_tool ext h toolName args userId now (some false)).handler = h := by
  unfold execute_tool
  split
  · rfl
  · split
    · rfl
    · simp [Option.getD]

theorem execute_tool_log_user
    (ext : MCPServer → String → Args → MCPToolResult) (h : HandlerState)
    (toolName : String) (args : Args) (userId : String) (now : Nat)
    (ra : Option Bool) :
    ((execute_tool ext h toolName args userId now ra).log.all
      (fun d => d.userId = userId)) = true := by
  unfold execute_tool
  split
  · rfl
  · split
    · rfl
    · dsimp only
      split
      · rfl
      · simp [List.all]

theorem approve_tool_call_not_found
    (ext : MCPServer → String → Args → MCPToolResult) (h : HandlerState) (cid : String)
    (hnone : dictLookup cid h.pending = none) :
    approve_tool_call ext h cid =
      { result := PyResult.ok (approval_not_found cid), handler := h, log := [] } := by
  unfold approve_tool_call
  rw [hnone]

theorem callid_ne_empty (userId toolName : String) (now : Nat) :
    approval_call_id userId toolName now ≠ "" := by
  intro hc
  have hlen := congrArg String.length hc
  unfold approval_call_id at hlen
  rw [String.length_append, String.length_append, String.length_append] at hlen
  have h1 : ("_" : String).length = 1 := rfl
  have h0 : ("" : String).length = 0 := rfl
  omega

/-! ## Claims -/

/-- Claim C1: for every pending tool call, the callId is resolvable by
approveCall at most once: the first approveCall on a stored callId removes
the pending call, executes it with approval forced false, and returns its
result; any approveCall with a callId not currently pending (including a
second approval of the same id) returns an explicit not-found error and
executes nothing. -/
theorem C1_approve_call_at_most_once
    (ext : MCPServer → String → Args → MCPToolResult) (h : HandlerState) (cid : String) :
    (∀ tc, dictLookup cid h.pending = some tc →
      approve_tool_call ext h cid =
        execute_tool ext { h with pending := dictErase cid h.pending }
          tc.name tc.arguments "approved" 0 (some false) ∧
      dictLookup cid (approve_tool_call ext h cid).handler.pending = none ∧
      approve_tool_call ext (approve_tool_call ext h cid).handler cid =
        { result := PyResult.ok (approval_not_found cid),
          handler := (approve_tool_call ext h cid).handler, log := [] }) ∧
    (dictLookup cid h.pending = none →
      approve_tool_call ext h cid =
        { result := PyResult.ok (approval_not_found cid), handler := h, log := [] }) := by
  constructor
  · intro tc hp
    have happrove : approve_tool_call ext h cid =
        execute_tool ext { h with pending := dictErase cid h.pending }
          tc.name tc.arguments "approved" 0 (some false) := by
      unfold approve_tool_call
      rw [hp]
    have hlook : dictLookup cid (approve_tool_call ext h cid).handler.pending = none := by
      rw [happrove, execute_tool_forced_false_handler]
      rw [show ({ h with pending := dictErase cid h.pending } : HandlerState).pending =
        dictErase cid h.pending from rfl]
      rw [dictLookup_dictErase, if_pos rfl]
    exact ⟨happrove, hlook, approve_tool_call_not_found ext _ cid hlook⟩
  · intro hnone
    exact approve_tool_call_not_found ext h cid hnone

/-- Claim C1 witness: on the freshly initialized handler with the gated
send_email call of scenario A pending, the first approval pops and
executes it and the second approval reports not-found. -/
theorem C1_witness :
    dictLookup cid1 pending_state.pending =
      some { name := "send_email", arguments := emailArgs, call_id := some cid1 } ∧
    (approve_tool_call extStub pending_state cid1 =
        execute_tool extStub { pending_state with pending := dictErase cid1 pending_state.pending }
          "send_email" emailArgs "approved" 0 (some false) ∧
      dictLookup cid1 (approve_tool_call extStub pending_state cid1).handler.pending = none ∧
      approve_tool_call extStub (approve_tool_call extStub pending_state cid1).handler cid1 =
        { result := PyResult.ok (approval_not_found cid1),
          handler := (approve_tool_call extStub pending_state cid1).handler, log := [] }) :=
  ⟨by decide,
    (C1_approve_call_at_most_once extStub pending_state cid1).1
      { name := "send_email", arguments := emailArgs, call_id := some cid1 } (by decide)⟩

/-- Claim C4: a tool routed to a provider whose approval mode is
always_ask, executed without an explicit approval override, yields
requires_approval true with a non-empty call id, stores the pending call,
and dispatches no tool handler. -/
theorem C4_always_ask_gates_execution
    (ext : MCPServer → String → Args → MCPToolResult) (h : HandlerState)
    (toolName : String) (args : Args) (userId : String) (now : Nat)
    (sname : String) (srv : MCPServer)
    (hreg : dictLookup toolName h.registry = some sname)
    (hsrv : dictLookup sname h.servers = some srv)
    (hmode : srv.approval_mode = "always_ask") :
    execute_tool ext h toolName args userId now none =
      { result := PyResult.ok (approval_gated_result toolName (approval_call_id userId toolName now)),
        handler := { h with pending := dictInsert (approval_call_id userId toolName now) (approval_pending_entry toolName args (approval_call_id userId toolName now)) h.pending },
        log := [] } ∧
    approval_call_id userId toolName now ≠ "" ∧
    dictLookup (approval_call_id userId toolName now)
        (execute_tool ext h toolName args userId now none).handler.pending =
      some (approval_pending_entry toolName args (approval_call_id userId toolName now)) := by
  have hexec : execute_tool ext h toolName args userId now none =
      { result := PyResult.ok (approval_gated_result toolName (approval_call_id userId toolName now)),
        handler := { h with pending := dictInsert (approval_call_id userId toolName now) (approval_pending_entry toolName args (approval_call_id userId toolName now)) h.pending },
        log := [] } := by
    simp [execute_tool, hreg, hsrv, hmode, Option.getD]
  refine ⟨hexec, callid_ne_empty userId toolName now, ?_⟩
  rw [hexec]
  rw [show ({ h with pending := dictInsert (approval_call_id userId toolName now) (approval_pending_entry toolName args (approval_call_id userId toolName now)) h.pending } : HandlerState).pending = dictInsert (approval_call_id userId toolName now) (approval_pending_entry toolName args (approval_call_id userId toolName now)) h.pending from rfl]
  rw [dictLookup_dictInsert, if_pos rfl]

/-- Claim C4 witness: scenario A — send_email resolves to the gmail
server, whose approval mode defaults to always_ask; executing it for u1 at
time 111 gates it behind approval with call id u1_send_email_111 and no
dispatch occurs. -/
theorem C4_witness :
    dictLookup "send_email" default_handler_state.registry = some "gmail" ∧
    dictLookup "gmail" default_handler_state.servers = some gmail_server ∧
    gmail_server.approval_mode = "always_ask" ∧
    (execute_tool extStub default_handler_state "send_email" emailArgs "u1" 111 none =
      { result := PyResult.ok (approval_gated_result "send_email" (approval_call_id "u1" "send_email" 111)),
        handler := { default_handler_state with pending := dictInsert (approval_call_id "u1" "send_email" 111) (approval_pending_entry "send_email" emailArgs (approval_call_id "u1" "send_email" 111)) default_handler_state.pending },
        log := [] } ∧
      approval_call_id "u1" "send_email" 111 ≠ "" ∧
      dictLookup (approval_call_id "u1" "send_email" 111)
          (execute_tool extStub default_handler_state "send_email" emailArgs "u1" 111 none).handler.pending =
        some (approval_pending_entry "send_email" emailArgs (approval_call_id "u1" "send_email" 111))) :=
  ⟨by decide, by decide, by decide,
    C4_always_ask_gates_execution extStub default_handler_state "send_email" emailArgs
      "u1" 111 "gmail" gmail_server (by decide) (by decide) (by decide)⟩

/-- Claim C10: resolution of a pending tool call is independent of the
caller's identity — the endpoint's outcome does not depend on the
authenticated user or the request's user_id field — and every dispatch a
post-approval execution performs runs under the fixed substitute user id
"approved". -/
theorem C10_approval_caller_independent
    (ext : MCPServer → String → Args → MCPToolResult) (h : HandlerState)
    (cid : String) (ap : Bool) (u1 u2 ua ub : String) :
    approve_endpoint ext u1 h { call_id := cid, approved := ap, user_id := ua } =
      approve_endpoint ext u2 h { call_id := cid, approved := ap, user_id := ub } ∧
    ((approve_tool_call ext h cid).log.all (fun d => d.userId = "approved")) = true := by
  constructor
  · rfl
  · unfold approve_tool_call
    cases hl : dictLookup cid h.pending with
    | none => rfl
    | some tc =>
      exact execute_tool_log_user ext
        { h with pending := dictErase cid h.pending } tc.name tc.arguments "approved" 0 (some false)

/-- Claim C2 counterexample: denying the stored call id of scenario A and
denying a call id that was never stored produce the exact same endpoint
response, so the caller cannot tell whether a pending call was actually
removed — the claimed true/false distinction does not exist. -/
theorem C2_cex_deny_indistinguishable :
    (approve_endpoint extStub "u2" pending_state
        { call_id := cid1, approved := false, user_id := "u2" }).response =
      (approve_endpoint extStub "u2" pending_state
        { call_id := "never_stored", approved := false, user_id := "u2" }).response ∧
    dictContains cid1 pending_state.pending = true ∧
    dictContains "never_stored" pending_state.pending = false := by decide

/-- Claim C2 as amended: a deny removes the pending call when one is
stored (so the call can never execute and a repeated deny is a state
no-op), but the endpoint answers with the same denied status whether or
not anything was removed; the response does not let the caller
distinguish the two cases. -/
theorem C2_amended_deny_removes_but_same_response
    (ext : MCPServer → String → Args → MCPToolResult) (u : String)
    (h : HandlerState) (req : ToolApprovalRequest) (hdeny : req.approved = false) :
    (approve_endpoint ext u h req).response =
      ApprovalResponse.denied "Tool call was denied by user" ∧
    (approve_endpoint ext u h req).log = [] ∧
    dictLookup req.call_id (approve_endpoint ext u h req).handler.pending = none ∧
    approve_endpoint ext u (approve_endpoint ext u h req).handler req =
      { response := ApprovalResponse.denied "Tool call was denied by user",
        handler := (approve_endpoint ext u h req).handler, log := [] } := by
  have hneg : ¬ (req.approved = true) := by rw [hdeny]; simp
  have hshape : ∀ (h' : HandlerState), approve_endpoint ext u h' req =
      { response := ApprovalResponse.denied "Tool call was denied by user",
        handler := if dictContains req.call_id h'.pending then
            { h' with pending := dictErase req.call_id h'.pending } else h',
        log := [] } := by
    intro h'
    unfold approve_endpoint
    rw [if_neg hneg]
  have hlook : dictLookup req.call_id (approve_endpoint ext u h req).handler.pending = none := by
    rw [hshape h]
    by_cases hc : dictContains req.call_id h.pending = true
    · rw [if_pos hc]
      rw [show ({ h with pending := dictErase req.call_id h.pending } : HandlerState).pending
          = dictErase req.call_id h.pending from rfl]
      rw [dictLookup_dictErase, if_pos rfl]
    · rw [if_neg hc]
      cases hl : dictLookup req.call_id h.pending with
      | none => rfl
      | some v =>
        exact absurd (by simp [dictContains, hl]) hc
  refine ⟨by rw [hshape h], by rw [hshape h], hlook, ?_⟩
  rw [hshape ((approve_endpoint ext u h req).handler)]
  have hc2 : ¬ (dictContains req.call_id (approve_endpoint ext u h req).handler.pending = true) := by
    simp [dictContains, hlook]
  rw [if_neg hc2]

/-- Claim C2 witness: the amended statement evaluated on the pending
send_email call of scenario A. -/
theorem C2_witness :
    (approve_endpoint extStub "u2" pending_state
        { call_id := cid1, approved := false, user_id := "u2" }).response =
      ApprovalResponse.denied "Tool call was denied by user" ∧
    (approve_endpoint extStub "u2" pending_state
        { call_id := cid1, approved := false, user_id := "u2" }).log = [] ∧
    dictLookup cid1 (approve_endpoint extStub "u2" pending_state
        { call_id := cid1, approved := false, user_id := "u2" }).handler.pending = none ∧
    approve_endpoint extStub "u2" (approve_endpoint extStub "u2" pending_state
        { call_id := cid1, approved := false, user_id := "u2" }).handler
        { call_id := cid1, approved := false, user_id := "u2" } =
      { response := ApprovalResponse.denied "Tool call was denied by user",
        handler := (approve_endpoint extStub "u2" pending_state
          { call_id := cid1, approved := false, user_id := "u2" }).handler,
        log := [] } :=
  C2_amended_deny_removes_but_same_response extStub "u2" pending_state
    { call_id := cid1, approved := false, user_id := "u2" } rfl

/-- Claim C3 counterexample: with the default perplexity_search provider
enabled and a second enabled provider my_search also declaring search_web,
get_available_tools lists two search_web schemas — the advertised list is
not deduplicated to exactly one. -/
theorem C3_cex_duplicate_schemas :
    countNamed "search_web" (get_available_tools two_search_state) = 2 := by decide

/-- Claim C3 as amended: the advertised tool list is the plain
concatenation of all enabled providers' schemas, so a name declared by two
enabled providers appears once per declaring provider (no dedup); the
last-registered-wins dedup applies to the name-to-provider routing
registry, whose lookup resolves a name to the provider of the most recent
registry write. -/
theorem C3_amended_no_dedup_registry_last_wins
    (h : HandlerState) (n : String) (hn : n ≠ "") :
    countNamed n (get_available_tools h) =
      ((writes_list h.servers).filter (fun p => p.1 = n)).length ∧
    dictLookup n (rebuild_tool_registry h.servers) = lastWrite (writes_list h.servers) n :=
  ⟨by rw [get_available_tools_eq, countNamed_enabled_tools n hn],
    rebuild_registry_lookup h.servers n⟩

/-- Claim C3 witness: the amended statement evaluated on the registry with
two providers declaring search_web; the routing registry points at the
most recently registered my_search. -/
theorem C3_witness :
    (countNamed "search_web" (get_available_tools two_search_state) =
        ((writes_list two_search_state.servers).filter (fun p => p.1 = "search_web")).length ∧
      dictLookup "search_web" (rebuild_tool_registry two_search_state.servers) =
        lastWrite (writes_list two_search_state.servers) "search_web") ∧
    lastWrite (writes_list two_search_state.servers) "search_web" = some "my_search" :=
  ⟨C3_amended_no_dedup_registry_last_wins two_search_state "search_web" (by decide), by decide⟩

/-- Claim C5 (code bug): the interrupt branch sets the session's
is_interrupted flag and acknowledges, but the flag is never read again
anywhere in the handler, so the next completed turn's response message is
still emitted to the transport instead of being suppressed; subsequent
text input also produces a normal response (because the flag is ignored
entirely, not because it is cleared). -/
theorem C5_interrupt_does_not_suppress_response :
    handle_websocket_message sttHello genEcho ttsNone 7 session0 InMsg.interrupt =
      ({ session0 with is_interrupted := true }, [OutMsg.interrupted]) ∧
    (handle_websocket_message sttHello genEcho ttsNone 7
        { session0 with is_interrupted := true } (InMsg.textInput "hi")).2 =
      [OutMsg.response "echo hi" none 7] ∧
    (handle_websocket_message sttHello genEcho ttsNone 7
        { session0 with is_interrupted := true } (InMsg.audio (some "blob"))).2 =
      [OutMsg.transcription "hello there" true,
        OutMsg.response "echo hello there" none 7] := by
  decide

/-- Claim C6 counterexample: a whitespace-only text_input handled over an
active session produces no outbound message at all — the transport does
not receive a reply for every inbound message. -/
theorem C6_cex_whitespace_text_gets_no_reply :
    handle_websocket_message sttHello genEcho ttsNone 3 session0 (InMsg.textInput "   ") =
      (session0, []) := by decide

/-- Claim C6 as amended: provided the response generator always yields a
response object (generate_bot_response returns a dict on every code path),
each inbound message either elicits at least one outbound message or is a
silent no-op that leaves the session unchanged (missing or empty audio
payload, empty or whitespace-only transcript or text, unrecognized message
type); handler failures are answered with an error message rather than a
closed connection. -/
theorem C6_amended_reply_or_silent_noop
    (stt : String → Option String) (gen : VoiceSession → String → Option BotResponse)
    (tts : String → String → Option String) (now : Nat) (s : VoiceSession) (m : InMsg)
    (hgen : ∀ s' t, (gen s' t).isSome = true) :
    (handle_websocket_message stt gen tts now s m).2 ≠ [] ∨
      (handle_websocket_message stt gen tts now s m).1 = s := by
  cases m with
  | audio d =>
    cases d with
    | none => right; rfl
    | some a =>
      simp only [handle_websocket_message]
      by_cases ha : a = ""
      · rw [if_pos ha]; right; rfl
      · rw [if_neg ha]
        cases hstt : stt a with
        | none => right; rfl
        | some t =>
          dsimp only
          by_cases hcond : t ≠ "" ∧ pyStrip t ≠ ""
          · rw [if_pos hcond]
            cases hg : gen { s with messages := s.messages ++ [{ role := "user", content := t }] } t with
            | none => left; simp
            | some br => left; simp
          · rw [if_neg hcond]; right; rfl
  | interrupt => left; simp [handle_websocket_message]
  | toggleMute => left; simp [handle_websocket_message]
  | textInput txt =>
    simp only [handle_websocket_message]
    by_cases hcond : pyStrip txt ≠ ""
    · rw [if_pos hcond]
      cases hg : gen { s with messages := s.messages ++ [{ role := "user", content := pyStrip txt }] } (pyStrip txt) with
      | none =>
        have := hgen { s with messages := s.messages ++ [{ role := "user", content := pyStrip txt }] } (pyStrip txt)
        rw [hg] at this
        exact absurd this (by simp)
      | some br => left; simp
    · rw [if_neg hcond]; right; rfl
  | other => right; rfl

/-- Claim C6 witness: the amended statement evaluated for a toggle_mute
message, whose reply is the mute_status event. -/
theorem C6_witness :
    (∀ s' t, (genEcho s' t).isSome = true) ∧
    ((handle_websocket_message sttHello genEcho ttsNone 3 session0 InMsg.toggleMute).2 ≠ [] ∨
      (handle_websocket_message sttHello genEcho ttsNone 3 session0 InMsg.toggleMute).1 = session0) :=
  ⟨fun _ _ => rfl,
    C6_amended_reply_or_silent_noop sttHello genEcho ttsNone 3 session0 InMsg.toggleMute
      (fun _ _ => rfl)⟩

/-- Claim C7 (code bug): ending alice's session as bob does leave the
session active, queryable and unpersisted with its transport open, and the
outcome differs from a successful end — but the error surfaces as HTTP 500
with detail "403: Access denied", not as a 403 Unauthorized: the route's
blanket except Exception catches its own HTTPException(403) and re-raises
it as HTTPException(500, str(e)). -/
theorem C7_end_by_non_owner_is_500_session_intact :
    end_voice_session "bob" alice_sessions ["s1"] "s1" =
      { response := HttpResult.err 500 "403: Access denied",
        sessions := alice_sessions, websockets := ["s1"],
        saved := [], disconnected := [], wsClosed := [] } ∧
    dictLookup "s1" (end_voice_session "bob" alice_sessions ["s1"] "s1").sessions =
      some alice_session ∧
    end_voice_session "bob" alice_sessions ["s1"] "s1" ≠
      end_voice_session "alice" alice_sessions ["s1"] "s1" := by
  decide

/-- Claim C8 counterexample: two session-start calls for the same user and
bot within the same unix second derive the same session id; the second
call silently replaces the first session's entry (the registry still holds
one entry, now with the second call's room), with no rejection or
retry. -/
theorem C8_cex_same_second_create_overwrites :
    start1.session_id = start2.session_id ∧
    start1.sessions.length = 1 ∧
    start2.sessions.length = 1 ∧
    (dictLookup start1.session_id start1.sessions).map (fun s => s.room_name) = some "r1" ∧
    (dictLookup start2.session_id start2.sessions).map (fun s => s.room_name) = some "r2" := by
  decide

/-- Claim C8 as amended: the session id is derived from
user + bot + unix-second timestamp and the new session is stored with a
plain dict assignment: when the derived id already exists the entry is
silently replaced (registry size unchanged), it is never rejected or
retried. -/
theorem C8_amended_create_overwrites
    (sessions : List (String × VoiceSession)) (req : VoiceSessionRequest)
    (now : Nat) (cfg : BotConfig) :
    (start_voice_session sessions req now cfg).session_id =
      req.user_id ++ "-" ++ req.bot_id ++ "-" ++ toString now ∧
    dictLookup (start_voice_session sessions req now cfg).session_id
        (start_voice_session sessions req now cfg).sessions =
      some { user_id := req.user_id, bot_id := req.bot_id,
             room_name := (start_voice_session sessions req now cfg).room_name,
             bot_config := cfg, created_at := now, messages := [], is_active := true } ∧
    (dictContains (req.user_id ++ "-" ++ req.bot_id ++ "-" ++ toString now) sessions = true →
      (start_voice_session sessions req now cfg).sessions.length = sessions.length) := by
  refine ⟨rfl, ?_, ?_⟩
  · show dictLookup (req.user_id ++ "-" ++ req.bot_id ++ "-" ++ toString now)
        (dictInsert (req.user_id ++ "-" ++ req.bot_id ++ "-" ++ toString now) _ sessions) = _
    rw [dictLookup_dictInsert, if_pos rfl]
    rfl
  · intro hc
    show (dictInsert (req.user_id ++ "-" ++ req.bot_id ++ "-" ++ toString now) _ sessions).length
        = sessions.length
    rw [dictInsert_length, if_pos hc]

/-- Claim C8 witness: the amended statement evaluated on the second create
call of the counterexample (the id u-b-100 is already registered, the
registry size stays 1). -/
theorem C8_witness :
    dictContains ("u" ++ "-" ++ "b" ++ "-" ++ toString (100 : Nat)) start1.sessions = true ∧
    start2.sessions.length = start1.sessions.length :=
  ⟨by decide,
    (C8_amended_create_overwrites start1.sessions
      { user_id := "u", bot_id := "b", room_name := some "r2" } 100 cfg0).2.2 (by decide)⟩

/-- Claim C9: an audio message whose transcript is missing, empty or
whitespace-only, and a text_input whose trimmed text is empty, append no
message, trigger no model turn (the outcome is the same for every
generator collaborator) and leave the session unchanged with no outbound
message. -/
theorem C9_silence_is_noop
    (stt : String → Option String) (gen : VoiceSession → String → Option BotResponse)
    (tts : String → String → Option String) (now : Nat) (s : VoiceSession) :
    (∀ a, (∀ t, stt a = some t → pyStrip t = "") →
      handle_websocket_message stt gen tts now s (InMsg.audio (some a)) = (s, [])) ∧
    (∀ txt, pyStrip txt = "" →
      handle_websocket_message stt gen tts now s (InMsg.textInput txt) = (s, [])) := by
  constructor
  · intro a ha
    simp only [handle_websocket_message]
    by_cases he : a = ""
    · rw [if_pos he]
    · rw [if_neg he]
      cases hstt : stt a with
      | none => rfl
      | some t =>
        have ht := ha t hstt
        dsimp only
        rw [if_neg (by simp [ht])]
  · intro txt htxt
    simp only [handle_websocket_message]
    rw [if_neg (by simp [htxt])]

/-- Claim C9 witness: a whitespace-only transcript and a whitespace-only
text input are both complete no-ops on a concrete session. -/
theorem C9_witness :
    handle_websocket_message sttBlank genEcho ttsNone 3 session0 (InMsg.audio (some "QUJD")) =
      (session0, []) ∧
    handle_websocket_message sttBlank genEcho ttsNone 3 session0 (InMsg.textInput "  ") =
      (session0, []) := by
  refine ⟨(C9_silence_is_noop sttBlank genEcho ttsNone 3 session0).1 "QUJD" ?_,
    (C9_silence_is_noop sttBlank genEcho ttsNone 3 session0).2 "  " (by decide)⟩
  intro t ht
  have h2 : (some "   " : Option String) = some t := ht
  rw [← Option.some.inj h2]
  decide

end VoiceSoul
